import Mathlib

/-!
Verification development for the Forex_Elementary_System repository.

The Python modules (`config.py`, `risk.py`, `costs.py`, `session.py`,
`psychology.py`, `indicators.py`, `regime.py`, `strategy.py`,
`performance.py`, `monte_carlo.py` and the replay loop
`back_test._run_simulation_core`) are shallowly embedded below.

Conventions used throughout the embedding:
* Python floats are modelled as exact rationals (`ℚ`).
* Timestamps are modelled as Unix epoch seconds (`ℕ`).  The backtest
  configuration states "All times assumed to be server time (UTC in
  backtests)", so `datetime.fromtimestamp`/`utcfromtimestamp` are both
  modelled as the identity on epoch seconds and an hour extraction.
* A float square root has no exact rational counterpart, so functions
  whose guard tests a standard deviation take the square-root routine as
  an explicit parameter; all theorems below are independent of it.
* A numpy division whose denominator is zero yields a non-finite value
  (`nan`/`inf`), modelled as `Option.none`.
* String tags of the source (`"BUY"`, `"trend"`, veto-reason strings,
  strategy names) are modelled as inductive tags; each constructor's doc
  comment records the exact source string it stands for.
-/

/-! ## config.py constants -/

/-- config.py: `RISK_PER_TRADE = 0.005`. -/
def RISK_PER_TRADE : ℚ := 5 / 1000

/-- config.py: `MAX_EFFECTIVE_LEVERAGE = 5.0`. -/
def MAX_EFFECTIVE_LEVERAGE : ℚ := 5

/-- config.py: `MAX_TRADES_PER_DAY = 5`. -/
def MAX_TRADES_PER_DAY : ℕ := 5

/-- config.py: `MEDIAN_SPREAD_PRICE = 0.00010`. -/
def MEDIAN_SPREAD_PRICE : ℚ := 1 / 10000

/-- config.py: `MAX_SPREAD_MULTIPLIER = 1.5`. -/
def MAX_SPREAD_MULTIPLIER : ℚ := 3 / 2

/-- config.py: `EXPECTED_SLIPPAGE_PIPS = 2.0`. -/
def EXPECTED_SLIPPAGE_PIPS : ℚ := 2

/-- config.py: `VOL_Z_COMPRESSION = -1.0`. -/
def VOL_Z_COMPRESSION : ℚ := -1

/-- config.py: `VOL_Z_EXPANSION = 1.0`. -/
def VOL_Z_EXPANSION : ℚ := 1

/-- config.py: `VOL_Z_EXTREME = 2.0`. -/
def VOL_Z_EXTREME : ℚ := 2

/-- config.py: `ADX_TREND_THRESHOLD = 25`. -/
def ADX_TREND_THRESHOLD : ℚ := 25

/-- config.py: `RR_MIN = 2.0`. -/
def RR_MIN : ℚ := 2

/-- config.py: `ATR_STOP_MULTIPLIER = 1.5`. -/
def ATR_STOP_MULTIPLIER : ℚ := 3 / 2

/-- config.py: `EXTENDED_MULTIPLIER = 1.5`. -/
def EXTENDED_MULTIPLIER : ℚ := 3 / 2

/-- risk.py / back_test.py: `PIP_SIZE = 0.0001`. -/
def PIP_SIZE : ℚ := 1 / 10000

/-! ## backtest_config.py constants -/

/-- backtest_config.py: `BT_INITIAL_BALANCE = 1000.00`. -/
def BT_INITIAL_BALANCE : ℚ := 1000

/-- backtest_config.py: `FIXED_SLIPPAGE_PIPS = 2.0`. -/
def FIXED_SLIPPAGE_PIPS : ℚ := 2

/-- backtest_config.py: `COMMISSION_PER_LOT = 0.00`. -/
def COMMISSION_PER_LOT : ℚ := 0

/-- backtest_config.py: `BT_MEAN_REVERSION_ONLY = True`. -/
def BT_MEAN_REVERSION_ONLY : Bool := true

/-- backtest_config.py: `BE_TRIGGER_R_MULT = 1.0`. -/
def BE_TRIGGER_R_MULT : ℚ := 1

/-- backtest_config.py: `BE_OFFSET_PIPS = 0.0`. -/
def BE_OFFSET_PIPS : ℚ := 0

/-- backtest_config.py: `SWAP_LONG_PER_LOT = 0.0`. -/
def SWAP_LONG_PER_LOT : ℚ := 0

/-- backtest_config.py: `SWAP_SHORT_PER_LOT = 0.0`. -/
def SWAP_SHORT_PER_LOT : ℚ := 0

/-! ## risk.py -/

/-- risk.py `_quantize_lot_size`: `math.floor(lots / step) * step` with
`step = 0.01`, followed by `round(quantized, 2)`.  Over exact rationals
`floor(lots / (1/100)) * (1/100)` is already an integer multiple of
`1/100`, on which rounding to two decimal places is the identity, so the
final `round` is omitted. -/
def quantize_lot_size (lots : ℚ) : ℚ :=
  (⌊lots / (1 / 100)⌋ : ℚ) * (1 / 100)

/-- risk.py `calculate_size(equity, stop_distance_pips, current_price)`.
The `stop_distance_pips` argument arrives in price units (the caller
passes `signal['stop_distance']`) and is converted to pips inside by
dividing by `PIP_SIZE`, exactly as in the source.  Early `return 0.0`
paths (non-positive risk dollars, non-positive stop distance, quantized
size below the broker minimum) are the `0` branches. -/
def calculate_size (equity stop_distance_pips current_price : ℚ) : ℚ :=
  let risk_dollars := equity * RISK_PER_TRADE
  if risk_dollars ≤ 0 then 0
  else if stop_distance_pips ≤ 0 then 0
  else
    let pips := stop_distance_pips / PIP_SIZE
    let raw_lots := risk_dollars / (pips * 10)
    let notional_value := raw_lots * 100000 * current_price
    let current_leverage := notional_value / equity
    let capped_lots :=
      if current_leverage > MAX_EFFECTIVE_LEVERAGE then
        equity * MAX_EFFECTIVE_LEVERAGE / (100000 * current_price)
      else raw_lots
    let final_lots := quantize_lot_size capped_lots
    if final_lots < 1 / 100 then 0 else final_lots

/-! ## costs.py -/

/-- costs.py `is_in_rollover`: reads `datetime.utcnow().time()` — the
ambient wall clock, not any bar timestamp — and tests membership in the
21:59–22:05 UTC window.  The ambient clock reading is made explicit as a
parameter `now_sec` (seconds since UTC midnight); `21:59:00 = 79140` and
`22:05:00 = 79500`. -/
def is_in_rollover (now_sec : ℕ) : Bool :=
  79140 ≤ now_sec % 86400 && now_sec % 86400 ≤ 79500

/-- costs.py `is_acceptable(current_spread_price)`: spread filter, then
rollover filter (which consults the ambient wall clock `now_sec`), then
the friction budget `spread_pips + EXPECTED_SLIPPAGE_PIPS > 3.0`.  The
function takes a single Python argument; `now_sec` is the explicit
rendering of its hidden `datetime.utcnow()` input. -/
def costs_is_acceptable (current_spread_price : ℚ) (now_sec : ℕ) : Bool :=
  if current_spread_price > MEDIAN_SPREAD_PRICE * MAX_SPREAD_MULTIPLIER then false
  else if is_in_rollover now_sec then false
  else if current_spread_price * 100000 / 10 + EXPECTED_SLIPPAGE_PIPS > 3 then false
  else true

/-! ## session.py -/

/-- session.py: `BLOCKED_HOURS_UTC = {3, 5, 10, 11, 12}`. -/
def BLOCKED_HOURS_UTC : List ℕ := [3, 5, 10, 11, 12]

/-- Hour of day of an epoch-seconds timestamp (UTC). -/
def hourOfSec (t : ℕ) : ℕ := t / 3600 % 24

/-- session.py `is_allowed(timestamp_utc)`: `None` permits trading,
otherwise the timestamp's hour must avoid `BLOCKED_HOURS_UTC`. -/
def session_is_allowed : Option ℕ → Bool
  | none => true
  | some t => !(decide (hourOfSec t ∈ BLOCKED_HOURS_UTC))

/-! ## indicators.py -/

/-- numpy slice `xs[-p:]`: the last `p` elements, the whole list when
`p = 0` (numpy's `xs[-0:]` is `xs[0:]`). -/
def lastN (p : ℕ) (xs : List ℚ) : List ℚ :=
  if p = 0 then xs else xs.drop (xs.length - p)

/-- Mean of a list (`np.mean`); `0` on the empty list. -/
def listMean (xs : List ℚ) : ℚ := xs.sum / xs.length

/-- Population variance of a list (the square of `np.std`). -/
def listPVar (xs : List ℚ) : ℚ :=
  (xs.map (fun x => (x - listMean xs) ^ 2)).sum / xs.length

/-- indicators.py `calculate_zscore(data, period)`.  The source computes
`std = np.std(window)` and guards `if std == 0: return 0.0`.  The float
square root is passed in as `sqrtFn` applied to the exact population
variance; every theorem below holds for an arbitrary `sqrtFn`. -/
def calculate_zscore (sqrtFn : ℚ → ℚ) (data : List ℚ) (period : ℕ) : ℚ :=
  if data.length < period then 0
  else
    let window := lastN period data
    let mean := listMean window
    let std := sqrtFn (listPVar window)
    if std = 0 then 0 else (data.getLastD 0 - mean) / std

/-- `high[1:] - high[:-1]` (numpy elementwise difference). -/
def adxUpMove (high : List ℚ) : List ℚ :=
  List.zipWith (fun a b => a - b) high.tail high.dropLast

/-- `low[:-1] - low[1:]`. -/
def adxDownMove (low : List ℚ) : List ℚ :=
  List.zipWith (fun a b => a - b) low.dropLast low.tail

/-- The true-range series `max(high-low, |high-prev_close|, |low-prev_close|)`
shared by `calculate_atr` and `calculate_adx`. -/
def trueRanges (high low close : List ℚ) : List ℚ :=
  let tr1 := List.zipWith (fun a b => a - b) high.tail low.tail
  let tr2 := List.zipWith (fun a b => |a - b|) high.tail close.dropLast
  let tr3 := List.zipWith (fun a b => |a - b|) low.tail close.dropLast
  List.zipWith max tr1 (List.zipWith max tr2 tr3)

/-- `np.where((up > down) & (up > 0), up, 0)`. -/
def adxPlusDM (high low : List ℚ) : List ℚ :=
  List.zipWith (fun u d => if u > d ∧ u > 0 then u else 0)
    (adxUpMove high) (adxDownMove low)

/-- `np.where((down > up) & (down > 0), down, 0)`. -/
def adxMinusDM (high low : List ℚ) : List ℚ :=
  List.zipWith (fun u d => if d > u ∧ d > 0 then d else 0)
    (adxUpMove high) (adxDownMove low)

/-- `np.sum(tr[-period:])`, the denominator of both directional indices. -/
def adxTrSmooth (high low close : List ℚ) (period : ℕ) : ℚ :=
  (lastN period (trueRanges high low close)).sum

/-- indicators.py `calculate_adx(high, low, close, period)`.  The source
has a short-history guard (`len(close) < period * 2` returns `0.0`) but
no guard on either division: numpy division by a zero `tr_smooth`, or a
zero `plus_di + minus_di`, yields a non-finite `nan`/`inf`, modelled
here as `none`. -/
def calculate_adx (high low close : List ℚ) (period : ℕ) : Option ℚ :=
  if close.length < period * 2 then some 0
  else
    let tr_smooth := adxTrSmooth high low close period
    if tr_smooth = 0 then none
    else
      let plus_di := 100 * ((lastN period (adxPlusDM high low)).sum / tr_smooth)
      let minus_di := 100 * ((lastN period (adxMinusDM high low)).sum / tr_smooth)
      if plus_di + minus_di = 0 then none
      else some (100 * |plus_di - minus_di| / (plus_di + minus_di))

/-! ## performance.py -/

/-- performance.py `generate_report`, the Sharpe line:
`(mean / std) * np.sqrt(252) if std != 0 else 0`.  The pandas mean,
standard deviation and `√252` enter as the parameters `meanRet`,
`stdRet` and `ann`. -/
def sharpe_of (meanRet stdRet ann : ℚ) : ℚ :=
  if stdRet ≠ 0 then meanRet / stdRet * ann else 0

/-! ## Tagged values (source string tags) -/

/-- Trade direction: the source strings `"BUY"` / `"SELL"`. -/
inductive TradeDirection | BUY | SELL
deriving DecidableEq, Repr

/-- Trade outcome: the source strings `"WIN"` / `"LOSS"`. -/
inductive TradeResult | WIN | LOSS
deriving DecidableEq, Repr

/-- regime.py volatility axis: `"compression" | "normal" | "expansion" |
"extreme_expansion"`. -/
inductive VolState | compression | normal | expansion | extreme_expansion
deriving DecidableEq, Repr

/-- regime.py structure axis: `"trend" | "range"`. -/
inductive StructState | trend | range
deriving DecidableEq, Repr

/-- regime.py higher-timeframe bias: `"up" | "down" | "flat"`. -/
inductive HtfTrend | up | down | flat
deriving DecidableEq, Repr

/-- regime.py strategy bias: `"trend" | "mean_reversion"` (or `None`). -/
inductive StrategyBias | trend | mean_reversion
deriving DecidableEq, Repr

/-- regime.py veto-reason strings.
`dead_market` stands for `"VETO: compression/dead market (no edge)"`;
`whipsaw` stands for `"VETO: high-volatility range (whipsaw risk)"`. -/
inductive VetoReason | dead_market | whipsaw
deriving DecidableEq, Repr

/-- strategy.py strategy tags: `"trend_following"` / `"mean_reversion"`. -/
inductive StratTag | trend_following | mean_reversion
deriving DecidableEq, Repr

/-! ## state.py -/

/-- state.py `TradingState` dataclass.  `trading_day` (a `"YYYY-MM-DD"`
string) and `last_update_ts` are opaque labels never read by the replay
loop and are modelled as numbers.  `last_trade_bar` is an `ℤ` because the
replay mixes epoch-second bar indices with loop indices when
subtracting. -/
structure TradingState where
  trading_day : ℕ := 0
  trades_today : ℕ := 0
  last_trade_bar : ℤ := 0
  risk_throttle : Bool := false
  trading_disabled : Bool := false
  consecutive_losses : ℕ := 0
  execution_failures : ℕ := 0
  last_update_ts : ℕ := 0
deriving DecidableEq, Repr

/-! ## Data model of the replay loop -/

/-- A raw MT5 rate record as used by the loop: `time` (epoch seconds),
OHLC mid prices, and the raw spread in points. -/
structure RawBar where
  time : ℕ
  openP : ℚ := 0
  high : ℚ
  low : ℚ
  close : ℚ
  spread : ℚ := 0
deriving DecidableEq, Repr

/-- The indicator outputs of `indicators.enrich_bar_with_indicators`
(the `metrics` dict merged into the bar by `data_adapter`). -/
structure IndMetrics where
  atr : ℚ
  ema_fast : ℚ
  ema_slow : ℚ
  adx : ℚ
  zscore : ℚ
  atr_zscore : ℚ
deriving DecidableEq, Repr

/-- The enriched bar dict produced by back_test.py `data_adapter`. -/
structure BarDict where
  bar_index : ℤ
  timestamp : ℕ
  close : ℚ
  high : ℚ
  low : ℚ
  spread : ℚ
  range : ℚ
  atr : ℚ
  ema_fast : ℚ
  ema_slow : ℚ
  adx : ℚ
  zscore : ℚ
  atr_zscore : ℚ
deriving DecidableEq, Repr

/-- back_test.py `data_adapter(window)`: enriches `window[-2]` (the
decision bar, here `target_bar`) with the indicator metrics; converts
the raw spread points to a price (`* 0.00001`); `range = high - low`;
`timestamp = datetime.fromtimestamp(time)` (identity under the UTC
server-time convention); `bar_index = target_bar['time']`. -/
def data_adapter (target_bar : RawBar) (m : IndMetrics) : BarDict :=
  { bar_index := (target_bar.time : ℤ)
    timestamp := target_bar.time
    close := target_bar.close
    high := target_bar.high
    low := target_bar.low
    spread := target_bar.spread * (1 / 100000)
    range := target_bar.high - target_bar.low
    atr := m.atr
    ema_fast := m.ema_fast
    ema_slow := m.ema_slow
    adx := m.adx
    zscore := m.zscore
    atr_zscore := m.atr_zscore }

/-! ## regime.py -/

/-- regime.py `analyze_regime` output (`regime_label`, a derived string
`f"{vol}_{struct}_{htf}"`, is recoverable from the three tag fields and
not materialised separately). -/
structure RegimeContext where
  volatility : VolState
  structure_state : StructState
  trade_allowed : Bool
  veto_reason : Option VetoReason
  risk_multiplier : ℚ
  strategy_bias : Option StrategyBias
  htf_trend : HtfTrend
deriving DecidableEq, Repr

/-- regime.py `classify_volatility(zscore)`. -/
def classify_volatility (zscore : ℚ) : VolState :=
  if zscore < VOL_Z_COMPRESSION then .compression
  else if zscore > VOL_Z_EXTREME then .extreme_expansion
  else if zscore > VOL_Z_EXPANSION then .expansion
  else .normal

/-- regime.py `classify_structure(bar)`. -/
def classify_structure (bar : BarDict) : StructState :=
  if bar.adx > ADX_TREND_THRESHOLD then .trend else .range

/-- regime.py `classify_htf_trend(bar)`: flat when `ema_slow` is 0,
otherwise a ±0.1%-of-`ema_slow` neutral band around `ema_slow`. -/
def classify_htf_trend (bar : BarDict) : HtfTrend :=
  if bar.ema_slow = 0 then .flat
  else
    let threshold := bar.ema_slow * (1 / 1000)
    if bar.close > bar.ema_slow + threshold then .up
    else if bar.close < bar.ema_slow - threshold then .down
    else .flat

/-- regime.py `analyze_regime(bar)`: the ordered decision table, first
match wins (rules 1–5 of the source, the final `else` splitting on
structure). -/
def analyze_regime (bar : BarDict) : RegimeContext :=
  let z := bar.atr_zscore
  let vol := classify_volatility z
  let strct := classify_structure bar
  let htf := classify_htf_trend bar
  if vol = .compression ∨ z < -2 then
    { volatility := vol, structure_state := strct, trade_allowed := false
      veto_reason := some .dead_market, risk_multiplier := 0
      strategy_bias := none, htf_trend := htf }
  else if (vol = .expansion ∨ vol = .extreme_expansion) ∧ strct = .range then
    { volatility := vol, structure_state := strct, trade_allowed := false
      veto_reason := some .whipsaw, risk_multiplier := 0
      strategy_bias := none, htf_trend := htf }
  else if vol = .expansion ∧ strct = .trend then
    { volatility := vol, structure_state := strct, trade_allowed := true
      veto_reason := none, risk_multiplier := 7 / 10
      strategy_bias := some .trend, htf_trend := htf }
  else if vol = .extreme_expansion ∧ strct = .trend then
    { volatility := vol, structure_state := strct, trade_allowed := true
      veto_reason := none, risk_multiplier := 1 / 2
      strategy_bias := some .trend, htf_trend := htf }
  else if strct = .trend then
    { volatility := vol, structure_state := strct, trade_allowed := true
      veto_reason := none, risk_multiplier := 1
      strategy_bias := some .trend, htf_trend := htf }
  else
    { volatility := vol, structure_state := strct, trade_allowed := true
      veto_reason := none, risk_multiplier := 1
      strategy_bias := some .mean_reversion, htf_trend := htf }

/-! ## strategy.py -/

/-- strategy.py signal dict built by `construct_signal_dict` (its
wall-clock `"timestamp"` field is write-only — never read downstream —
and omitted).  `risk_multiplier`/`htf_trend` are attached only by the
trend-following path. -/
structure Signal where
  direction : TradeDirection
  strategy_tag : StratTag
  entry_price : ℚ
  sl : ℚ
  tp : ℚ
  stop_distance : ℚ
  target_distance : ℚ
  risk_multiplier : Option ℚ := none
  htf_trend : Option HtfTrend := none
deriving DecidableEq, Repr

/-- strategy.py `construct_signal_dict(direction, bar, strategy)`:
price levels from the decision bar's close and ATR,
`sl_distance = atr * ATR_STOP_MULTIPLIER`,
`tp_distance = sl_distance * RR_MIN`. -/
def construct_signal_dict (direction : TradeDirection) (bar : BarDict)
    (strategy : StratTag) : Signal :=
  let entry_price := bar.close
  let sl_distance := bar.atr * ATR_STOP_MULTIPLIER
  let tp_distance := sl_distance * RR_MIN
  match direction with
  | .BUY =>
      { direction := .BUY, strategy_tag := strategy, entry_price := entry_price
        sl := entry_price - sl_distance, tp := entry_price + tp_distance
        stop_distance := sl_distance, target_distance := tp_distance }
  | .SELL =>
      { direction := .SELL, strategy_tag := strategy, entry_price := entry_price
        sl := entry_price + sl_distance, tp := entry_price - tp_distance
        stop_distance := sl_distance, target_distance := tp_distance }

/-- strategy.py `get_mean_reversion_signal(bar)`: `zscore > 2 ⇒ SELL`,
`zscore < -2 ⇒ BUY`, otherwise no signal. -/
def get_mean_reversion_signal (bar : BarDict) : Option Signal :=
  if bar.zscore > 2 then some (construct_signal_dict .SELL bar .mean_reversion)
  else if bar.zscore < -2 then some (construct_signal_dict .BUY bar .mean_reversion)
  else none

/-- strategy.py `get_trend_following_signal(bar, regime_context)`:
pullback entry against the fast EMA, then the HTF-alignment multiplier
(1.0 aligned / 0.5 flat / 0.0 opposed) applied to the regime's
`risk_multiplier`; a non-positive product vetoes the signal. -/
def get_trend_following_signal (bar : BarDict) (ctx : RegimeContext) :
    Option Signal :=
  let dir : Option TradeDirection :=
    if bar.ema_fast > bar.ema_slow then
      if bar.low ≤ bar.ema_fast ∧ bar.close > bar.ema_fast then some .BUY else none
    else if bar.ema_fast < bar.ema_slow then
      if bar.high ≥ bar.ema_fast ∧ bar.close < bar.ema_fast then some .SELL else none
    else none
  match dir with
  | none => none
  | some d =>
      let signal := construct_signal_dict d bar .trend_following
      let htf := ctx.htf_trend
      let aligned := (d = .BUY ∧ htf = .up) ∨ (d = .SELL ∧ htf = .down)
      let htf_mult : ℚ := if aligned then 1 else if htf = .flat then 1 / 2 else 0
      let final_mult := ctx.risk_multiplier * htf_mult
      if final_mult ≤ 0 then none
      else some { signal with risk_multiplier := some final_mult
                              htf_trend := some htf }

/-- back_test.py `_select_signal_by_bias(bar_dict, market_context)`: with
`BT_MEAN_REVERSION_ONLY = True` only a mean-reversion bias proceeds;
then the extended-candle filter
`bar['range'] > bar['atr'] * EXTENDED_MULTIPLIER` discards the signal. -/
def select_signal_by_bias (bar : BarDict) (ctx : RegimeContext) :
    Option Signal :=
  if BT_MEAN_REVERSION_ONLY ∧ ctx.strategy_bias ≠ some .mean_reversion then none
  else
    let signal :=
      match ctx.strategy_bias with
      | some .trend => get_trend_following_signal bar ctx
      | some .mean_reversion => get_mean_reversion_signal bar
      | none => none
    match signal with
    | none => none
    | some s => if bar.range > bar.atr * EXTENDED_MULTIPLIER then none else some s

/-! ## psychology.py -/

/-- psychology.py `is_allowed(state_obj, bar)`: daily cap, cooldown
(`bar['bar_index'] - state.last_trade_bar < 5`; note `bar_index` is the
decision bar's epoch-second time while `last_trade_bar` is a loop
index, mirrored as-is), risk throttle, kill switch. -/
def psychology_is_allowed (st : TradingState) (bar : BarDict) : Bool :=
  if st.trades_today ≥ MAX_TRADES_PER_DAY then false
  else if bar.bar_index - st.last_trade_bar < 5 then false
  else if st.risk_throttle then false
  else if st.trading_disabled then false
  else true

/-! ## back_test.py: trade lifecycle -/

/-- The `active_trade` dict built at Layer 7 of the replay loop.
`time` is the entry bar's epoch time; `entry_bar_index` the loop index;
`be_moved` is absent in Python until the breakeven rule fires (absent ≙
`false`). -/
structure OpenTrade where
  time : ℕ
  type : TradeDirection
  entry_price : ℚ
  sl : ℚ
  tp : ℚ
  size : ℚ
  entry_bar_index : ℕ
  structure_state : StructState
  strategy_tag : StratTag
  entry_hour : ℕ
  zscore : ℚ
  atr_zscore : ℚ
  spread : ℚ
  stop_distance : ℚ
  target_distance : ℚ
  slippage_pips : ℚ
  commission_per_lot : ℚ
  be_moved : Bool := false
deriving DecidableEq, Repr

/-- The dict returned by `check_exit_conditions`. -/
structure ExitData where
  result : TradeResult
  raw_pnl : ℚ
deriving DecidableEq, Repr

/-- The dict appended to `trade_history` when a trade closes. -/
structure ClosedTradeRecord where
  entry_time : ℕ
  exit_time : ℕ
  result : TradeResult
  pnl : ℚ
  balance : ℚ
  return_pct : ℚ
  type : TradeDirection
  structure_state : StructState
  strategy_tag : StratTag
  entry_hour : ℕ
  zscore : ℚ
  atr_zscore : ℚ
  spread : ℚ
  stop_distance : ℚ
  target_distance : ℚ
deriving DecidableEq, Repr

/-- The replay loop's mutable environment: running equity, the trade
history, the at-most-one `active_trade` slot, and the psychology
state. -/
structure SimState where
  equity : ℚ
  history : List ClosedTradeRecord
  active : Option OpenTrade
  btState : TradingState
deriving DecidableEq, Repr

/-- A Python exception escaping the loop body.  `costsArity` is the
`TypeError` raised by `costs.is_acceptable(current_spread_price,
bar_dict.get('timestamp'))` (back_test.py line 641): `is_acceptable`
takes one positional argument but two are passed. -/
inductive SimError | costsArity
deriving DecidableEq, Repr

/-- back_test.py `_count_rollovers(entry_time, exit_time)`: number of
daily 22:00 cutovers strictly after the entry instant and at or before
the exit instant.  The source initialises `rollover` to the entry's day
at 22:00 (`79200` seconds into the day), bumps it one day forward when
`entry_time >= rollover`, then counts `while rollover <= exit_time` in
one-day steps; the count is written in closed form. -/
def count_rollovers (entry_time exit_time : ℕ) : ℕ :=
  if exit_time ≤ entry_time then 0
  else
    let r0 := entry_time / 86400 * 86400 + 79200
    let r1 := if r0 ≤ entry_time then r0 + 86400 else r0
    if exit_time < r1 then 0 else (exit_time - r1) / 86400 + 1

/-- back_test.py `_calc_swap(trade, exit_time)`: per-lot swap rate by
direction times size times the rollover count. -/
def calc_swap (trade : OpenTrade) (exit_time : ℕ) : ℚ :=
  let rollovers := count_rollovers trade.time exit_time
  if rollovers ≤ 0 then 0
  else
    let rate := match trade.type with
      | .BUY => SWAP_LONG_PER_LOT
      | .SELL => SWAP_SHORT_PER_LOT
    rate * trade.size * rollovers

/-- back_test.py `_maybe_move_breakeven(trade, current_bar)`: once the
favourable excursion reaches `stop_distance * BE_TRIGGER_R_MULT`, move
the stop to entry ± `BE_OFFSET_PIPS` pips, monotonically only (max/min
against the current stop), at most once (`be_moved`).  A falsy
(zero) recorded `stop_distance` falls back to `|entry - sl|`. -/
def maybe_move_breakeven (trade : OpenTrade) (current_bar : RawBar) :
    OpenTrade :=
  if trade.be_moved then trade
  else
    let stop_distance :=
      if trade.stop_distance ≠ 0 then trade.stop_distance
      else |trade.entry_price - trade.sl|
    if stop_distance ≤ 0 then trade
    else
      let trigger_move := stop_distance * BE_TRIGGER_R_MULT
      let be_offset := BE_OFFSET_PIPS * PIP_SIZE
      match trade.type with
      | .BUY =>
          if current_bar.high ≥ trade.entry_price + trigger_move then
            { trade with sl := max trade.sl (trade.entry_price + be_offset)
                         be_moved := true }
          else trade
      | .SELL =>
          if current_bar.low ≤ trade.entry_price - trigger_move then
            { trade with sl := min trade.sl (trade.entry_price - be_offset)
                         be_moved := true }
          else trade

/-- back_test.py `check_exit_conditions(trade, current_bar)`: SL/TP
triggers are evaluated on the bar's mid high/low (never its close); the
SL takes priority when both trigger (`exit_side = 'SL' if hit_sl else
'TP'`); fills adjust the mid exit level by half-spread plus slippage
against the trader; `raw_pnl` uses contract size 100000. -/
def check_exit_conditions (trade : OpenTrade) (current_bar : RawBar) :
    Option ExitData :=
  let half_spread := trade.spread / 2
  let slippage_price := trade.slippage_pips * PIP_SIZE
  let hit_sl : Bool := match trade.type with
    | .BUY => decide (current_bar.low ≤ trade.sl)
    | .SELL => decide (current_bar.high ≥ trade.sl)
  let hit_tp : Bool := match trade.type with
    | .BUY => decide (current_bar.high ≥ trade.tp)
    | .SELL => decide (current_bar.low ≤ trade.tp)
  if !hit_sl && !hit_tp then none
  else
    let mid_exit := if hit_sl then trade.sl else trade.tp
    let result := if hit_sl then TradeResult.LOSS else TradeResult.WIN
    match trade.type with
    | .BUY =>
        let exit_exec := mid_exit - half_spread - slippage_price
        some { result := result
               raw_pnl := (exit_exec - trade.entry_price) * 100000 * trade.size }
    | .SELL =>
        let exit_exec := mid_exit + half_spread + slippage_price
        some { result := result
               raw_pnl := (trade.entry_price - exit_exec) * 100000 * trade.size }

/-- The InTrade → Flat transition of `_run_simulation_core` (lines
579–609): book `net_pnl = raw_pnl - commission - swap`, update equity,
append the `ClosedTradeRecord`, set `last_trade_bar` to the closing loop
index `i`, clear the active slot.  (`trades_today` is not touched by
the source's close branch.) -/
def close_trade (i : ℕ) (current_bar : RawBar) (st : SimState)
    (trade : OpenTrade) (exit_data : ExitData) : SimState :=
  let commission_cost := trade.commission_per_lot * trade.size * 2
  let net_pnl := exit_data.raw_pnl - commission_cost
      - calc_swap trade current_bar.time
  let equity' := st.equity + net_pnl
  { equity := equity'
    history := st.history ++
      [{ entry_time := trade.time
         exit_time := current_bar.time
         result := exit_data.result
         pnl := net_pnl
         balance := equity'
         return_pct := net_pnl / (equity' - net_pnl)
         type := trade.type
         structure_state := trade.structure_state
         strategy_tag := trade.strategy_tag
         entry_hour := trade.entry_hour
         zscore := trade.zscore
         atr_zscore := trade.atr_zscore
         spread := trade.spread
         stop_distance := trade.stop_distance
         target_distance := trade.target_distance }]
    active := none
    btState := { st.btState with last_trade_bar := (i : ℤ) } }

/-- Pure lifecycle management of one bar: the behaviour the replay loop
specifies for a bar while a trade is open (breakeven check, exit check,
close booking) and a no-op when flat. -/
def lifecycle_step (i : ℕ) (current_bar : RawBar) (st : SimState) :
    SimState :=
  match st.active with
  | none => st
  | some trade =>
      let trade' := maybe_move_breakeven trade current_bar
      match check_exit_conditions trade' current_bar with
      | some exit_data => close_trade i current_bar st trade' exit_data
      | none => { st with active := some trade' }

/-- Layers 2–5 of `_run_simulation_core`'s hierarchical veto pipeline:
regime gate, signal selection, psychology gate, session gate, then the
cost-filter call — which in the source is
`costs.is_acceptable(current_spread_price, bar_dict.get('timestamp'))`
and raises a `TypeError` (`is_acceptable` accepts a single argument), so
every run that reaches Layer 5 aborts; Layers 6–7 (position sizing and
virtual execution, lines 645–693) are unreachable from this loop. -/
def veto_pipeline (target_bar : RawBar) (m : IndMetrics) (st : SimState) :
    Except SimError SimState :=
  let bar := data_adapter target_bar m
  let ctx := analyze_regime bar
  if ctx.trade_allowed = false then .ok st
  else
    match select_signal_by_bias bar ctx with
    | none => .ok st
    | some _ =>
        if psychology_is_allowed st.btState bar = false then .ok st
        else if session_is_allowed (some bar.timestamp) = false then .ok st
        else .error SimError.costsArity

/-- One iteration of `_run_simulation_core`'s main loop at loop index
`i`, with `current_bar = window[-1]` and `target_bar = window[-2]`
(whose indicator metrics are `m`).  When a trade is open and does not
exit on this bar, control falls through into the veto pipeline: the
source's `continue` (line 609) sits inside `if exit_data:`, unlike the
sibling loops `opt_ind_test`/`opt_test` where it ends the iteration for
every open trade. -/
def simStep (i : ℕ) (current_bar target_bar : RawBar) (m : IndMetrics)
    (st : SimState) : Except SimError SimState :=
  match st.active with
  | some trade =>
      let trade' := maybe_move_breakeven trade current_bar
      match check_exit_conditions trade' current_bar with
      | some exit_data => .ok (close_trade i current_bar st trade' exit_data)
      | none => veto_pipeline target_bar m { st with active := some trade' }
  | none => veto_pipeline target_bar m st

/-! ## monte_carlo.py -/

/-- monte_carlo.py `_max_drawdown` inner loop over the equity curve. -/
def mdLoop : ℚ → ℚ → List ℚ → ℚ
  | _, mdd, [] => mdd
  | peak, mdd, v :: rest =>
      let peak' := if v > peak then v else peak
      let dd := (v - peak') / peak'
      let mdd' := if dd < mdd then dd else mdd
      mdLoop peak' mdd' rest

/-- monte_carlo.py `_max_drawdown(equity_curve)`: peak seeded with the
curve's first element, drawdowns accumulated over the whole curve,
reported in percent. -/
def max_drawdown (equity_curve : List ℚ) : ℚ :=
  mdLoop (equity_curve.headD 0) 0 equity_curve * 100

/-- One Monte Carlo trial's equity curve: `curve = [eq]` then
`len(returns)` multiplicative steps `eq *= 1 + r` with `r` drawn by the
sampler.  `random.choice(returns)` is modelled by the index sampler
`pickRow k` (reduced mod the list length), `k` the step number and
`remaining` the steps left. -/
def mcCurveGo (returns : List ℚ) (pickRow : ℕ → ℕ) (eq : ℚ) (k : ℕ) :
    ℕ → List ℚ
  | 0 => [eq]
  | remaining + 1 =>
      eq :: mcCurveGo returns pickRow
        (eq * (1 + returns.getD (pickRow k % returns.length) 0)) (k + 1)
        remaining

/-- A full trial curve starting from `BT_INITIAL_BALANCE`. -/
def mcCurve (returns : List ℚ) (pickRow : ℕ → ℕ) : List ℚ :=
  mcCurveGo returns pickRow BT_INITIAL_BALANCE 0 returns.length

/-- monte_carlo.py `run_monte_carlo` sampling stage: the per-trial final
balances and max drawdowns, with `pick t` the trial-`t` sampler standing
for the seeded `random.choice` stream. -/
def run_monte_carlo (returns : List ℚ) (pick : ℕ → ℕ → ℕ)
    (iterations : ℕ) : List ℚ × List ℚ :=
  ((List.range iterations).map fun t => (mcCurve returns (pick t)).getLastD 0,
   (List.range iterations).map fun t => max_drawdown (mcCurve returns (pick t)))

/-- Linear interpolation of sorted data `s` at virtual index `h`:
`s[⌊h⌋] + (h - ⌊h⌋) * (s[⌊h⌋+1] - s[⌊h⌋])`, indices clamped to the
array. -/
def interpVal (s : List ℚ) (h : ℚ) : ℚ :=
  let n := s.length
  let i : ℕ := min (⌊h⌋.toNat) (n - 1)
  let j : ℕ := min (i + 1) (n - 1)
  s.getD i 0 + (h - i) * (s.getD j 0 - s.getD i 0)

/-- `np.percentile(xs, q)` with the default linear-interpolation method:
sort the data and interpolate at the virtual index `(n - 1) * q / 100`. -/
def npPercentile (xs : List ℚ) (q : ℚ) : ℚ :=
  let s := xs.mergeSort fun a b => decide (a ≤ b)
  interpVal s (((s.length - 1 : ℕ) : ℚ) * q / 100)

/-! ## Concrete replay fixtures

States and bars used by the closed theorems below; field values are
spelled as exact rationals (e.g. `11/10 = 1.10`). -/

/-- An open BUY trade: entry 1.10, stop 1.00, target 1.20, size 0.03
lots, entry spread 1 pip, 2 pips slippage, zero commission, breakeven
already applied (`be_moved`). -/
def exTrade : OpenTrade :=
  ⟨0, .BUY, 11/10, 1, 6/5, 3/100, 2, .range, .mean_reversion, 0, 0, 0,
   1/10000, 1/10, 1/5, 2, 0, true⟩

/-- A replay state holding `exTrade` with equity 1000 and the default
psychology state. -/
def exState : SimState := ⟨1000, [], some exTrade, {}⟩

/-- A bar whose low 0.90 breaches `exTrade`'s stop 1.00 (and whose high
1.00 stays below the 1.20 target). -/
def closingBar : RawBar := ⟨50000, 0, 1, 9/10, 19/20, 10⟩

/-- A bar that triggers neither exit of `exTrade`:
low 1.05 > none of the levels, high 1.15 < target 1.20. -/
def holdingBar : RawBar := ⟨50000, 0, 23/20, 21/20, 11/10, 10⟩

/-- A decision bar in an allowed session hour (epoch 1000000 ⇒ UTC hour
13) with flat prices 1.10 and a 1-pip raw spread. -/
def signalBar : RawBar := ⟨1000000, 0, 11/10, 11/10, 11/10, 10⟩

/-- Indicator metrics producing a mean-reversion SELL signal:
normal volatility (`atr_zscore = 0`), range structure (`adx = 0`),
`zscore = 3 > 2`, `atr = 1`. -/
def signalMetrics : IndMetrics := ⟨1, 1, 1, 0, 3, 0⟩

/-- As `signalMetrics` but with a zero ATR. -/
def zeroAtrMetrics : IndMetrics := ⟨0, 1, 1, 0, 3, 0⟩

/-- A decision bar whose hour (3 UTC) is in `BLOCKED_HOURS_UTC`. -/
def blockedBar : RawBar := ⟨3 * 3600, 0, 11/10, 11/10, 11/10, 10⟩

/-- The exit data `check_exit_conditions` produces for `exTrade` on
`closingBar`: a stop-out with
`raw_pnl = (1 - 0.00005 - 0.0002 - 1.10) * 100000 * 0.03 = -300.75`. -/
def exExit : ExitData := ⟨.LOSS, -1203/4⟩

/-- The enriched decision bar of the C4 scenario: close 1.10000 and
ATR 0.001, so `stop_distance = 0.001 * 1.5 = 0.00150`. -/
def scenarioBar : BarDict :=
  data_adapter ⟨0, 0, 11/10, 11/10, 11/10, 0⟩ ⟨1/1000, 0, 0, 0, 0, 0⟩

/-- The enriched decision bar with a zero ATR and `zscore = 3`. -/
def zeroAtrBar : BarDict := data_adapter signalBar zeroAtrMetrics

/-- `data_adapter signalBar signalMetrics`, written out. -/
def sigBarDict : BarDict :=
  { bar_index := 1000000, timestamp := 1000000, close := 11/10
    high := 11/10, low := 11/10, spread := 1/10000, range := 0
    atr := 1, ema_fast := 1, ema_slow := 1, adx := 0, zscore := 3
    atr_zscore := 0 }

/-- The regime context of `sigBarDict` (and of `zeroAtrBar`): normal
volatility, range structure, mean-reversion bias, trading allowed. -/
def sigCtx : RegimeContext :=
  { volatility := VolState.normal, structure_state := StructState.range
    trade_allowed := true, veto_reason := none, risk_multiplier := 1
    strategy_bias := some StrategyBias.mean_reversion
    htf_trend := HtfTrend.up }

/-! ## Theorems -/

/-- Floor quantization never exceeds its input. -/
theorem quantize_lot_size_le (lots : ℚ) : quantize_lot_size lots ≤ lots := by
  unfold quantize_lot_size
  have hfl := Int.floor_le (lots / (1 / 100))
  have h := mul_le_mul_of_nonneg_right hfl (by norm_num : (0 : ℚ) ≤ 1 / 100)
  calc (⌊lots / (1 / 100)⌋ : ℚ) * (1 / 100) ≤ lots / (1 / 100) * (1 / 100) := h
    _ = lots := by ring

/-- A quantized size at or above the broker minimum is a positive
multiple of the 0.01 lot step. -/
theorem quantize_lot_size_multiple (lots : ℚ)
    (h : 1 / 100 ≤ quantize_lot_size lots) :
    ∃ k : ℕ, 1 ≤ k ∧ quantize_lot_size lots = (k : ℚ) / 100 := by
  unfold quantize_lot_size at h ⊢
  have h1 : (1 : ℚ) ≤ (⌊lots / (1 / 100)⌋ : ℚ) := by nlinarith
  have h2 : (1 : ℤ) ≤ ⌊lots / (1 / 100)⌋ := by exact_mod_cast h1
  refine ⟨⌊lots / (1 / 100)⌋.toNat, ?_, ?_⟩
  · omega
  · have : ((⌊lots / (1 / 100)⌋.toNat : ℤ) : ℚ) = (⌊lots / (1 / 100)⌋ : ℚ) := by
      exact_mod_cast congrArg Int.cast (Int.toNat_of_nonneg (by omega))
    rw [← this]
    push_cast
    ring

/-- Claim C1 (counterexample): the cost veto is evaluated on identical
bar/configuration inputs (the same spread) at two different ambient
wall-clock instants (12:00:00 and 22:00:00 UTC) and decides differently,
so the replay's cost veto is not a function of the bars and
configuration only. -/
theorem cost_veto_wall_clock_cex :
    costs_is_acceptable (1/10000) 43200 ≠ costs_is_acceptable (1/10000) 79200 := by
  have h1 : costs_is_acceptable (1/10000) 43200 = true := by
    norm_num [costs_is_acceptable, is_in_rollover, MEDIAN_SPREAD_PRICE,
      MAX_SPREAD_MULTIPLIER, EXPECTED_SLIPPAGE_PIPS]
  have h2 : costs_is_acceptable (1/10000) 79200 = false := by
    norm_num [costs_is_acceptable, is_in_rollover, MEDIAN_SPREAD_PRICE,
      MAX_SPREAD_MULTIPLIER, EXPECTED_SLIPPAGE_PIPS]
  rw [h1, h2]
  simp

/-- Claim C1 (amended): the cost filter depends on the ambient clock
only through the rollover-window predicate `is_in_rollover` (which reads
`datetime.utcnow`); two evaluations over identical spread input on which
the rollover predicate agrees decide identically, so replay runs over
identical bars and configuration yield identical decisions whenever
their wall-clock rollover readings coincide. -/
theorem cost_veto_rollover_only (spread : ℚ) (n₁ n₂ : ℕ)
    (h : is_in_rollover n₁ = is_in_rollover n₂) :
    costs_is_acceptable spread n₁ = costs_is_acceptable spread n₂ := by
  unfold costs_is_acceptable
  rw [h]

/-- Witness for `cost_veto_rollover_only` at spread 1 pip and the
instants 00:00:00 and 00:01:00 UTC. -/
theorem cost_veto_rollover_only_witness :
    is_in_rollover 0 = is_in_rollover 60 ∧
    costs_is_acceptable (1/10000) 0 = costs_is_acceptable (1/10000) 60 :=
  ⟨by decide, cost_veto_rollover_only (1/10000) 0 60 (by decide)⟩

/-- Claim C5: a compression volatility bucket, or an ATR Z-score below
−2.0, makes `analyze_regime` disallow trading with risk multiplier 0 and
the "dead market" veto reason, regardless of the ADX/structure axis —
rule 1 of the decision table wins over every later row. -/
theorem regime_dead_market_veto (bar : BarDict)
    (h : classify_volatility bar.atr_zscore = VolState.compression ∨
         bar.atr_zscore < -2) :
    (analyze_regime bar).trade_allowed = false ∧
    (analyze_regime bar).risk_multiplier = 0 ∧
    (analyze_regime bar).veto_reason = some VetoReason.dead_market := by
  simp only [analyze_regime]
  rw [if_pos h]
  exact ⟨rfl, rfl, rfl⟩

/-- Witness for `regime_dead_market_veto`: ATR Z-score −2.5 with ADX 100
(a trending structure axis) still yields the dead-market veto. -/
theorem regime_dead_market_veto_witness :
    (data_adapter signalBar ⟨1, 1, 1, 100, 0, -5/2⟩).atr_zscore < -2 ∧
    (analyze_regime (data_adapter signalBar ⟨1, 1, 1, 100, 0, -5/2⟩)).trade_allowed = false ∧
    (analyze_regime (data_adapter signalBar ⟨1, 1, 1, 100, 0, -5/2⟩)).risk_multiplier = 0 ∧
    (analyze_regime (data_adapter signalBar ⟨1, 1, 1, 100, 0, -5/2⟩)).veto_reason = some VetoReason.dead_market :=
  ⟨by norm_num [data_adapter, signalBar],
   regime_dead_market_veto _ (Or.inr (by norm_num [data_adapter, signalBar]))⟩

/-- Claim C7 (counterexample): on a window of four identical bars (so
the summed true range is zero) with enough history for the main ADX
branch, `calculate_adx` hits an unguarded zero division and yields an
undefined (non-finite) value rather than the neutral 0.0. -/
theorem adx_zero_true_range_cex :
    calculate_adx [1, 1, 1, 1] [1, 1, 1, 1] [1, 1, 1, 1] 1 = none ∧
    calculate_adx [1, 1, 1, 1] [1, 1, 1, 1] [1, 1, 1, 1] 1 ≠ some 0 := by
  have h1 : calculate_adx [1, 1, 1, 1] [1, 1, 1, 1] [1, 1, 1, 1] 1 = none := by
    norm_num [calculate_adx, adxTrSmooth, trueRanges, lastN]
  exact ⟨h1, by rw [h1]; simp⟩

/-- Claim C7 (amended): the Z-score rolling computation and the Sharpe
line fail soft to 0.0 when their standard-deviation denominator is zero,
but the ADX divisions are unguarded: with sufficient history, a zero
summed true range — or a zero `plus_di + minus_di` — produces an
undefined (non-finite) result instead of 0.0. -/
theorem division_guard_spec :
    (∀ (sqrtFn : ℚ → ℚ) (data : List ℚ) (period : ℕ),
       sqrtFn (listPVar (lastN period data)) = 0 →
       calculate_zscore sqrtFn data period = 0) ∧
    (∀ meanRet ann : ℚ, sharpe_of meanRet 0 ann = 0) ∧
    (∀ (high low close : List ℚ) (period : ℕ),
       ¬ close.length < period * 2 →
       adxTrSmooth high low close period = 0 →
       calculate_adx high low close period = none) ∧
    (∀ (high low close : List ℚ) (period : ℕ),
       ¬ close.length < period * 2 →
       100 * ((lastN period (adxPlusDM high low)).sum / adxTrSmooth high low close period) +
         100 * ((lastN period (adxMinusDM high low)).sum / adxTrSmooth high low close period) = 0 →
       calculate_adx high low close period = none) := by
  refine ⟨?_, ?_, ?_, ?_⟩
  · intro sqrtFn data period h
    unfold calculate_zscore
    split
    · rfl
    · rw [if_pos h]
  · intro meanRet ann
    unfold sharpe_of
    simp
  · intro high low close period hlen h
    unfold calculate_adx
    rw [if_neg hlen, if_pos h]
  · intro high low close period hlen h
    by_cases h0 : adxTrSmooth high low close period = 0
    · unfold calculate_adx
      rw [if_neg hlen, if_pos h0]
    · unfold calculate_adx
      rw [if_neg hlen, if_neg h0, if_pos h]

/-- Witness for `division_guard_spec`: a constant two-element window has
zero variance, and any square-root routine fixing 0 (here the identity)
makes the Z-score guard return 0. -/
theorem division_guard_spec_witness :
    (fun x : ℚ => x) (listPVar (lastN 2 [1, 1])) = 0 ∧
    calculate_zscore (fun x : ℚ => x) [1, 1] 2 = 0 :=
  ⟨by norm_num [listPVar, listMean, lastN],
   division_guard_spec.1 (fun x => x) [1, 1] 2
     (by norm_num [listPVar, listMean, lastN])⟩

/-- Claim C4 (counterexample): the Signal Generator can emit a signal
whose stop and target do not lie strictly on either side of the entry:
on a decision bar with a zero ATR and `zscore = 3`, the mean-reversion
path (run through `select_signal_by_bias` with its own regime context)
produces a SELL whose `sl`, `entry_price` and `tp` all equal the close
1.10. -/
theorem signal_zero_atr_cex :
    (select_signal_by_bias zeroAtrBar (analyze_regime zeroAtrBar)).map
        (fun s => (s.sl, s.entry_price, s.tp))
      = some (11/10, 11/10, 11/10) := by
  have hbar : zeroAtrBar =
      { bar_index := 1000000, timestamp := 1000000, close := 11/10
        high := 11/10, low := 11/10, spread := 1/10000, range := 0
        atr := 0, ema_fast := 1, ema_slow := 1, adx := 0, zscore := 3
        atr_zscore := 0 } := by
    norm_num [zeroAtrBar, data_adapter, signalBar, zeroAtrMetrics]
  have hvol : classify_volatility (0 : ℚ) = VolState.normal := by
    norm_num [classify_volatility, VOL_Z_COMPRESSION, VOL_Z_EXPANSION,
      VOL_Z_EXTREME]
  rw [hbar]
  have hctx : analyze_regime
      { bar_index := 1000000, timestamp := 1000000, close := 11/10
        high := 11/10, low := 11/10, spread := 1/10000, range := 0
        atr := 0, ema_fast := 1, ema_slow := 1, adx := 0, zscore := 3
        atr_zscore := 0 } =
      { volatility := VolState.normal, structure_state := StructState.range
        trade_allowed := true, veto_reason := none, risk_multiplier := 1
        strategy_bias := some StrategyBias.mean_reversion
        htf_trend := HtfTrend.up } := by
    norm_num [analyze_regime, hvol, classify_structure, classify_htf_trend,
      ADX_TREND_THRESHOLD]
    rfl
  rw [hctx]
  norm_num [select_signal_by_bias, get_mean_reversion_signal,
    construct_signal_dict, ATR_STOP_MULTIPLIER, RR_MIN,
    EXTENDED_MULTIPLIER, BT_MEAN_REVERSION_ONLY]

/-- Claim C4 (amended): every signal dict places the target distance at
exactly `stop_distance * RR_MIN`; whenever the decision bar's ATR is
positive, stop and target lie strictly on the loss and profit side of
the entry according to the direction; and the scenario holds: a BUY at
close 1.10000 with `stop_distance` 0.00150 and `rr_ratio` 2.0 gets
`stop_loss = 1.09850` and `take_profit = 1.10300`.  (With a zero ATR the
levels degenerate onto the entry price.) -/
theorem signal_levels_spec :
    (∀ (d : TradeDirection) (bar : BarDict) (tag : StratTag),
       (construct_signal_dict d bar tag).target_distance
         = (construct_signal_dict d bar tag).stop_distance * RR_MIN) ∧
    (∀ (bar : BarDict) (tag : StratTag), 0 < bar.atr →
       ((construct_signal_dict .BUY bar tag).sl < (construct_signal_dict .BUY bar tag).entry_price ∧
        (construct_signal_dict .BUY bar tag).entry_price < (construct_signal_dict .BUY bar tag).tp) ∧
       ((construct_signal_dict .SELL bar tag).entry_price < (construct_signal_dict .SELL bar tag).sl ∧
        (construct_signal_dict .SELL bar tag).tp < (construct_signal_dict .SELL bar tag).entry_price)) ∧
    ((construct_signal_dict .BUY scenarioBar .mean_reversion).entry_price = 11/10 ∧
     (construct_signal_dict .BUY scenarioBar .mean_reversion).stop_distance = 3/2000 ∧
     (construct_signal_dict .BUY scenarioBar .mean_reversion).sl = 2197/2000 ∧
     (construct_signal_dict .BUY scenarioBar .mean_reversion).tp = 1103/1000) := by
  refine ⟨?_, ?_, ?_⟩
  · intro d bar tag
    cases d <;> simp [construct_signal_dict]
  · intro bar tag h
    have hsd : 0 < bar.atr * ATR_STOP_MULTIPLIER := by
      have : (0:ℚ) < ATR_STOP_MULTIPLIER := by norm_num [ATR_STOP_MULTIPLIER]
      positivity
    have htd : 0 < bar.atr * ATR_STOP_MULTIPLIER * RR_MIN := by
      have : (0:ℚ) < RR_MIN := by norm_num [RR_MIN]
      positivity
    constructor <;> constructor <;> simp [construct_signal_dict] <;> linarith
  · norm_num [construct_signal_dict, scenarioBar, data_adapter,
      ATR_STOP_MULTIPLIER, RR_MIN]

/-- Witness for `signal_levels_spec` at the scenario bar (ATR 0.001 is
positive). -/
theorem signal_levels_spec_witness :
    (0 : ℚ) < scenarioBar.atr ∧
    (construct_signal_dict .BUY scenarioBar .mean_reversion).sl
      < (construct_signal_dict .BUY scenarioBar .mean_reversion).entry_price :=
  ⟨by norm_num [scenarioBar, data_adapter],
   ((signal_levels_spec.2.1 scenarioBar .mean_reversion
      (by norm_num [scenarioBar, data_adapter])).1).1⟩

/-- Claim C3: exit detection reads only the bar's high/low (never its
close): a BUY is stopped out when `low ≤ stop_loss` and takes profit
when `high ≥ take_profit`, symmetrically for SELL, and whenever both
trigger on one bar the stop wins, recording LOSS. -/
theorem exit_high_low_stop_priority :
    (∀ (t : OpenTrade) (b : RawBar), t.type = TradeDirection.BUY →
       (((check_exit_conditions t b).isSome) ↔ (b.low ≤ t.sl ∨ t.tp ≤ b.high)) ∧
       (b.low ≤ t.sl →
         (check_exit_conditions t b).map ExitData.result = some TradeResult.LOSS) ∧
       (¬ b.low ≤ t.sl → t.tp ≤ b.high →
         (check_exit_conditions t b).map ExitData.result = some TradeResult.WIN)) ∧
    (∀ (t : OpenTrade) (b : RawBar), t.type = TradeDirection.SELL →
       (((check_exit_conditions t b).isSome) ↔ (t.sl ≤ b.high ∨ b.low ≤ t.tp)) ∧
       (t.sl ≤ b.high →
         (check_exit_conditions t b).map ExitData.result = some TradeResult.LOSS) ∧
       (¬ t.sl ≤ b.high → b.low ≤ t.tp →
         (check_exit_conditions t b).map ExitData.result = some TradeResult.WIN)) ∧
    (∀ (t : OpenTrade) (b : RawBar) (c : ℚ),
       check_exit_conditions t b = check_exit_conditions t { b with close := c }) := by
  refine ⟨?_, ?_, ?_⟩
  · intro t b ht
    by_cases hsl : b.low ≤ t.sl <;> by_cases htp : t.tp ≤ b.high <;>
      simp [check_exit_conditions, ht, hsl, htp]
  · intro t b ht
    by_cases hsl : t.sl ≤ b.high <;> by_cases htp : b.low ≤ t.tp <;>
      simp [check_exit_conditions, ht, hsl, htp]
  · intro t b c
    rfl

/-- Witness for `exit_high_low_stop_priority`: on `closingBar` both of
`exTrade`'s levels are compared; the low breaches the stop, so the
recorded result is LOSS. -/
theorem exit_high_low_stop_priority_witness :
    exTrade.type = TradeDirection.BUY ∧
    closingBar.low ≤ exTrade.sl ∧
    (check_exit_conditions exTrade closingBar).map ExitData.result
      = some TradeResult.LOSS :=
  ⟨rfl, by norm_num [closingBar, exTrade],
   (exit_high_low_stop_priority.1 exTrade closingBar rfl).2.1
     (by norm_num [closingBar, exTrade])⟩

/-- Claim C2: every accepted (positive) size returned by the Position
Sizer is a positive multiple of the 0.01 lot step and respects the risk
budget `size × stop_distance_pips × pip_value ≤ equity × risk_per_trade`
(floor quantization never rounds up); every returned size is either 0 (a
veto — never a clamped minimum) or at least the 0.01 step; and the
scenario holds: equity 1000, 15-pip stop (price distance 0.0015), price
1.10 give exactly 0.03 lots. -/
theorem calculate_size_risk_budget :
    (∀ equity sd price : ℚ,
       calculate_size equity sd price = 0 ∨
         ∃ k : ℕ, 1 ≤ k ∧ calculate_size equity sd price = (k : ℚ) / 100) ∧
    (∀ equity sd price : ℚ, 0 < calculate_size equity sd price →
       calculate_size equity sd price * (sd / PIP_SIZE) * 10
         ≤ equity * RISK_PER_TRADE) ∧
    calculate_size 1000 (3/2000) (11/10) = 3/100 := by
  refine ⟨?_, ?_, ?_⟩
  · intro equity sd price
    unfold calculate_size
    by_cases h1 : equity * RISK_PER_TRADE ≤ 0
    · rw [if_pos h1]; exact Or.inl rfl
    rw [if_neg h1]
    by_cases h2 : sd ≤ 0
    · rw [if_pos h2]; exact Or.inl rfl
    rw [if_neg h2]
    set capped := if equity * RISK_PER_TRADE / (sd / PIP_SIZE * 10) * 100000 * price / equity >
        MAX_EFFECTIVE_LEVERAGE then
        equity * MAX_EFFECTIVE_LEVERAGE / (100000 * price)
      else equity * RISK_PER_TRADE / (sd / PIP_SIZE * 10) with hcap
    by_cases h3 : quantize_lot_size capped < 1 / 100
    · rw [if_pos h3]; exact Or.inl rfl
    · rw [if_neg h3]
      exact Or.inr (quantize_lot_size_multiple capped (le_of_not_lt h3))
  · intro equity sd price hpos
    unfold calculate_size at hpos ⊢
    by_cases h1 : equity * RISK_PER_TRADE ≤ 0
    · rw [if_pos h1] at hpos; exact absurd hpos (lt_irrefl 0)
    rw [if_neg h1] at hpos ⊢
    by_cases h2 : sd ≤ 0
    · rw [if_pos h2] at hpos; exact absurd hpos (lt_irrefl 0)
    rw [if_neg h2] at hpos ⊢
    push_neg at h1 h2
    have hpip : (0:ℚ) < sd / PIP_SIZE * 10 := by
      have : (0:ℚ) < PIP_SIZE := by norm_num [PIP_SIZE]
      positivity
    have hrisk : 0 < equity * RISK_PER_TRADE := h1
    have hequity : 0 < equity := by
      by_contra hneg
      push_neg at hneg
      have : equity * RISK_PER_TRADE ≤ 0 :=
        mul_nonpos_of_nonpos_of_nonneg hneg (by norm_num [RISK_PER_TRADE])
      linarith
    set raw := equity * RISK_PER_TRADE / (sd / PIP_SIZE * 10) with hraw
    have hrawpos : 0 < raw := div_pos hrisk hpip
    set capped := if raw * 100000 * price / equity > MAX_EFFECTIVE_LEVERAGE then
        equity * MAX_EFFECTIVE_LEVERAGE / (100000 * price)
      else raw with hcap
    have hcapped_le : capped ≤ raw := by
      rw [hcap]
      split
      · next hlev =>
          have hlev5 : (5:ℚ) < raw * 100000 * price / equity := by
            simpa [MAX_EFFECTIVE_LEVERAGE] using hlev
          have hnot : 5 * equity < raw * 100000 * price :=
            (lt_div_iff₀ hequity).mp hlev5
          have hprice : 0 < price := by
            by_contra hp
            push_neg at hp
            have : raw * 100000 * price ≤ 0 := by
              have h100 : 0 < raw * 100000 := by positivity
              exact mul_nonpos_of_nonneg_of_nonpos (le_of_lt h100) hp
            nlinarith
          rw [MAX_EFFECTIVE_LEVERAGE, div_le_iff₀ (by positivity : (0:ℚ) < 100000 * price)]
          nlinarith
      · exact le_refl raw
    by_cases h3 : quantize_lot_size capped < 1 / 100
    · rw [if_pos h3] at hpos; exact absurd hpos (lt_irrefl 0)
    rw [if_neg h3] at hpos ⊢
    have hq_le : quantize_lot_size capped ≤ raw :=
      le_trans (quantize_lot_size_le capped) hcapped_le
    have hfinal : quantize_lot_size capped * (sd / PIP_SIZE * 10)
        ≤ raw * (sd / PIP_SIZE * 10) :=
      mul_le_mul_of_nonneg_right hq_le (le_of_lt hpip)
    have hraw_mul : raw * (sd / PIP_SIZE * 10) = equity * RISK_PER_TRADE := by
      rw [hraw]
      exact div_mul_cancel₀ _ (ne_of_gt hpip)
    calc quantize_lot_size capped * (sd / PIP_SIZE) * 10
        = quantize_lot_size capped * (sd / PIP_SIZE * 10) := by ring
      _ ≤ raw * (sd / PIP_SIZE * 10) := hfinal
      _ = equity * RISK_PER_TRADE := hraw_mul
  · have hfloor : ⌊(10:ℚ)/3⌋ = 3 := by norm_num
    have h30 : quantize_lot_size (1/30) = 3/100 := by
      unfold quantize_lot_size
      rw [show ((1:ℚ)/30) / (1/100) = 10/3 by norm_num, hfloor]
      norm_num
    norm_num [calculate_size, RISK_PER_TRADE, PIP_SIZE, MAX_EFFECTIVE_LEVERAGE]
    norm_num [h30]

/-- Witness for `calculate_size_risk_budget`: the scenario size 0.03 is
positive and consumes at most the 5-dollar risk budget
(`0.03 × 15 × 10 = 4.5 ≤ 5`). -/
theorem calculate_size_risk_budget_witness :
    0 < calculate_size 1000 (3/2000) (11/10) ∧
    calculate_size 1000 (3/2000) (11/10) * ((3/2000) / PIP_SIZE) * 10
      ≤ 1000 * RISK_PER_TRADE :=
  ⟨by rw [calculate_size_risk_budget.2.2]; norm_num,
   calculate_size_risk_budget.2.1 1000 (3/2000) (11/10)
     (by rw [calculate_size_risk_budget.2.2]; norm_num)⟩

/-- In a blocked session hour the veto pipeline stops at or before the
session gate, so it returns the state unchanged and never reaches the
(crashing) cost-filter call. -/
theorem veto_pipeline_blocked (target_bar : RawBar) (m : IndMetrics)
    (st : SimState) (h : hourOfSec target_bar.time ∈ BLOCKED_HOURS_UTC) :
    veto_pipeline target_bar m st = Except.ok st := by
  have hsess : session_is_allowed (some target_bar.time) = false := by
    simp [session_is_allowed, h]
  simp only [veto_pipeline, data_adapter]
  split
  · rfl
  split
  · rfl
  split
  · rfl
  · rfl

/-- Claim C10: a decision bar whose (UTC) hour is 3, 5, 10, 11 or 12 is
processed by lifecycle management alone — the session gate, sitting
after the behavioural gate and before the cost filter, vetoes any entry,
so no trade can be opened on that bar; a missing (`None`) timestamp
leaves the gate open. -/
theorem session_gate_spec :
    (∀ (i : ℕ) (current_bar target_bar : RawBar) (m : IndMetrics)
       (st : SimState), hourOfSec target_bar.time ∈ BLOCKED_HOURS_UTC →
       simStep i current_bar target_bar m st
         = Except.ok (lifecycle_step i current_bar st)) ∧
    session_is_allowed none = true := by
  constructor
  · intro i current_bar target_bar m st h
    rcases hact : st.active with _ | trade
    · simp only [simStep, lifecycle_step, hact]
      exact veto_pipeline_blocked target_bar m st h
    · simp only [simStep, lifecycle_step, hact]
      rcases hexit : check_exit_conditions (maybe_move_breakeven trade current_bar)
          current_bar with _ | exit_data
      · simp only [hexit]
        exact veto_pipeline_blocked target_bar m _ h
      · simp only [hexit]
  · rfl

/-- Witness for `session_gate_spec` on `blockedBar` (UTC hour 3) while
`exState` holds an open trade. -/
theorem session_gate_spec_witness :
    hourOfSec blockedBar.time ∈ BLOCKED_HOURS_UTC ∧
    simStep 5 holdingBar blockedBar signalMetrics exState
      = Except.ok (lifecycle_step 5 holdingBar exState) :=
  ⟨by decide,
   session_gate_spec.1 5 holdingBar blockedBar signalMetrics exState (by decide)⟩

/-- Claim C6 (amended): when the replay loop closes a trade it books
`net PnL = gross PnL - commission - swap`, updates the equity, appends
the `ClosedTradeRecord`, sets `TradingState.last_trade_bar` to the
closing loop index — and leaves `trades_today` unchanged (the backtest
close transition never increments it; only the live loop in main.py
does). -/
theorem close_transition_spec (i : ℕ) (current_bar target_bar : RawBar)
    (m : IndMetrics) (st : SimState) (trade : OpenTrade)
    (exit_data : ExitData) (hact : st.active = some trade)
    (hexit : check_exit_conditions (maybe_move_breakeven trade current_bar)
        current_bar = some exit_data) :
    let trade' := maybe_move_breakeven trade current_bar
    let net_pnl := exit_data.raw_pnl
        - trade'.commission_per_lot * trade'.size * 2
        - calc_swap trade' current_bar.time
    let st' := close_trade i current_bar st trade' exit_data
    simStep i current_bar target_bar m st = Except.ok st' ∧
    st'.equity = st.equity + net_pnl ∧
    st'.history = st.history ++
      [{ entry_time := trade'.time, exit_time := current_bar.time
         result := exit_data.result, pnl := net_pnl
         balance := st.equity + net_pnl
         return_pct := net_pnl / st.equity
         type := trade'.type, structure_state := trade'.structure_state
         strategy_tag := trade'.strategy_tag, entry_hour := trade'.entry_hour
         zscore := trade'.zscore, atr_zscore := trade'.atr_zscore
         spread := trade'.spread, stop_distance := trade'.stop_distance
         target_distance := trade'.target_distance }] ∧
    st'.btState.last_trade_bar = (i : ℤ) ∧
    st'.btState.trades_today = st.btState.trades_today ∧
    st'.active = none := by
  intro trade' net_pnl st'
  refine ⟨?_, rfl, ?_, rfl, rfl, rfl⟩
  · simp only [simStep, hact, hexit]
  · simp only [st', close_trade, add_sub_cancel_right]

/-- Witness for `close_transition_spec` on the concrete stop-out of
`exTrade` by `closingBar`: the closed state keeps `trades_today` at its
prior value while `last_trade_bar` moves to the closing index. -/
theorem close_transition_spec_witness :
    exState.active = some exTrade ∧
    check_exit_conditions (maybe_move_breakeven exTrade closingBar) closingBar
      = some exExit ∧
    (close_trade 7 closingBar exState (maybe_move_breakeven exTrade closingBar)
        exExit).btState.trades_today = exState.btState.trades_today ∧
    (close_trade 7 closingBar exState (maybe_move_breakeven exTrade closingBar)
        exExit).btState.last_trade_bar = (7 : ℤ) := by
  have hbe : maybe_move_breakeven exTrade closingBar = exTrade := rfl
  have hsl : closingBar.low ≤ exTrade.sl := by norm_num [closingBar, exTrade]
  have hntp : ¬ exTrade.tp ≤ closingBar.high := by
    norm_num [closingBar, exTrade]
  have htype : exTrade.type = TradeDirection.BUY := rfl
  have hexit : check_exit_conditions exTrade closingBar = some exExit := by
    simp only [check_exit_conditions, htype]
    simp [hsl, hntp]
    norm_num [exTrade, closingBar, exExit, PIP_SIZE]
  rw [hbe]
  refine ⟨rfl, hexit, ?_⟩
  have h := close_transition_spec 7 closingBar signalBar signalMetrics exState
    exTrade exExit rfl (by rw [hbe]; exact hexit)
  rw [hbe] at h
  exact ⟨h.2.2.2.2.1, h.2.2.2.1⟩

/-- Claim C6 (counterexample): a replay step that closes a trade
(history grows by one record) leaves `trades_today` at 0 instead of
incrementing it to 1: the close branch of `_run_simulation_core` updates
`last_trade_bar` only. -/
theorem close_trades_today_cex :
    (simStep 7 closingBar signalBar signalMetrics exState).toOption.map
        (fun s => (s.history.length, s.btState.trades_today))
      = some (1, 0) := by
  have hbe : maybe_move_breakeven exTrade closingBar = exTrade := rfl
  have hsl : closingBar.low ≤ exTrade.sl := by norm_num [closingBar, exTrade]
  have hntp : ¬ exTrade.tp ≤ closingBar.high := by
    norm_num [closingBar, exTrade]
  have htype : exTrade.type = TradeDirection.BUY := rfl
  have hexit : check_exit_conditions exTrade closingBar = some exExit := by
    simp only [check_exit_conditions, htype]
    simp [hsl, hntp]
    norm_num [exTrade, closingBar, exExit, PIP_SIZE]
  have hact : exState.active = some exTrade := rfl
  have hstep : simStep 7 closingBar signalBar signalMetrics exState
      = Except.ok (close_trade 7 closingBar exState exTrade exExit) := by
    simp only [simStep, hact, hbe, hexit]
  rw [hstep]
  simp [close_trade, exState]
  exact ⟨_, rfl, rfl, rfl⟩

/-- Claim C8: with a trade open (`exState`) and a bar (`holdingBar`)
that triggers neither exit, the loop body of `_run_simulation_core` does
NOT consume the bar with lifecycle management alone: its `continue`
(line 609) sits one level too deep, so control falls through into the
hierarchical veto pipeline, a fresh mean-reversion signal is evaluated
on the decision bar, every gate up to the session gate passes, and the
iteration then aborts on the mis-typed cost-filter call — instead of the
specified no-op `Except.ok` that leaves the open trade alone. -/
theorem intrade_pipeline_evaluated :
    exState.active = some exTrade ∧
    check_exit_conditions (maybe_move_breakeven exTrade holdingBar) holdingBar
      = none ∧
    simStep 7 holdingBar signalBar signalMetrics exState
      = Except.error SimError.costsArity := by
  have hbe : maybe_move_breakeven exTrade holdingBar = exTrade := rfl
  have htype : exTrade.type = TradeDirection.BUY := rfl
  have hnsl : ¬ holdingBar.low ≤ exTrade.sl := by norm_num [holdingBar, exTrade]
  have hntp : ¬ exTrade.tp ≤ holdingBar.high := by norm_num [holdingBar, exTrade]
  have hexit : check_exit_conditions exTrade holdingBar = none := by
    simp only [check_exit_conditions, htype]
    simp [hnsl, hntp]
  have hbar : data_adapter signalBar signalMetrics = sigBarDict := by
    norm_num [data_adapter, signalBar, signalMetrics, sigBarDict]
  have hvol : classify_volatility (0 : ℚ) = VolState.normal := by
    norm_num [classify_volatility, VOL_Z_COMPRESSION, VOL_Z_EXPANSION,
      VOL_Z_EXTREME]
  have hctx : analyze_regime sigBarDict = sigCtx := by
    norm_num [analyze_regime, sigBarDict, hvol, classify_structure,
      classify_htf_trend, ADX_TREND_THRESHOLD, sigCtx]
    rfl
  have hsig : select_signal_by_bias sigBarDict sigCtx
      = some (construct_signal_dict TradeDirection.SELL sigBarDict
          StratTag.mean_reversion) := by
    norm_num [select_signal_by_bias, sigCtx, BT_MEAN_REVERSION_ONLY,
      get_mean_reversion_signal, sigBarDict, EXTENDED_MULTIPLIER]
  have hpsy : psychology_is_allowed exState.btState sigBarDict = true := by
    decide
  have hses : session_is_allowed (some sigBarDict.timestamp) = true := by
    decide
  have hpipe : veto_pipeline signalBar signalMetrics exState
      = Except.error SimError.costsArity := by
    simp only [veto_pipeline, hbar, hctx, hsig, hpsy, hses]
    simp [sigCtx]
  have hact : exState.active = some exTrade := rfl
  refine ⟨hact, by rw [hbe]; exact hexit, ?_⟩
  have hupd : ({ exState with active := some exTrade } : SimState) = exState :=
    rfl
  simp only [simStep, hact, hbe, hexit, hupd, hpipe]

/-- The comparator used by `npPercentile` sorts rationals. -/
theorem mergeSortQ_sorted (xs : List ℚ) :
    List.Sorted (· ≤ ·) (xs.mergeSort fun a b => decide (a ≤ b)) := by
  have htrans : ∀ a b c : ℚ, (decide (a ≤ b)) = true → (decide (b ≤ c)) = true →
      (decide (a ≤ c)) = true := by
    intro a b c hab hbc
    exact decide_eq_true (le_trans (of_decide_eq_true hab) (of_decide_eq_true hbc))
  have htotal : ∀ a b : ℚ, ((decide (a ≤ b)) || (decide (b ≤ a))) = true := by
    intro a b
    rcases le_total a b with h | h
    · simp [h]
    · simp [h]
  exact (List.sorted_mergeSort htrans htotal xs).imp fun hab =>
    of_decide_eq_true hab

/-- Reading a sorted list at increasing (in-bounds) positions is
monotone. -/
theorem sorted_getD_le (s : List ℚ) (hs : List.Sorted (· ≤ ·) s) (a b : ℕ)
    (hab : a ≤ b) (hb : b < s.length) : s.getD a 0 ≤ s.getD b 0 := by
  rcases lt_or_eq_of_le hab with hlt | rfl
  · have ha : a < s.length := lt_trans hlt hb
    rw [List.getD_eq_getElem s 0 ha, List.getD_eq_getElem s 0 hb]
    have h := List.pairwise_iff_get.mp hs ⟨a, ha⟩ ⟨b, hb⟩ hlt
    simpa [List.get_eq_getElem] using h
  · exact le_refl _

/-- Linear interpolation over a sorted list is monotone in the virtual
index. -/
theorem interpVal_mono (s : List ℚ) (hs : List.Sorted (· ≤ ·) s)
    (hpos : 0 < s.length) (h₁ h₂ : ℚ) (h0 : 0 ≤ h₁) (h12 : h₁ ≤ h₂)
    (hL : h₂ ≤ ((s.length - 1 : ℕ) : ℚ)) :
    interpVal s h₁ ≤ interpVal s h₂ := by
  simp only [interpVal]
  have h02 : 0 ≤ h₂ := le_trans h0 h12
  have h1L : h₁ ≤ ((s.length - 1 : ℕ) : ℚ) := le_trans h12 hL
  have hf1 : (0:ℤ) ≤ ⌊h₁⌋ := Int.floor_nonneg.mpr h0
  have hf2 : (0:ℤ) ≤ ⌊h₂⌋ := Int.floor_nonneg.mpr h02
  have hfle : ⌊h₁⌋ ≤ ⌊h₂⌋ := Int.floor_le_floor h12
  have hfL1 : ⌊h₁⌋ ≤ ((s.length - 1 : ℕ) : ℤ) := by
    have h := Int.floor_le_floor h1L
    simpa using h
  have hfL2 : ⌊h₂⌋ ≤ ((s.length - 1 : ℕ) : ℤ) := by
    have h := Int.floor_le_floor hL
    simpa using h
  have hi1L : ⌊h₁⌋.toNat ≤ s.length - 1 := Int.toNat_le.mpr hfL1
  have hi2L : ⌊h₂⌋.toNat ≤ s.length - 1 := Int.toNat_le.mpr hfL2
  rw [min_eq_left hi1L, min_eq_left hi2L]
  have hc1 : ((⌊h₁⌋.toNat : ℕ) : ℚ) = ((⌊h₁⌋ : ℤ) : ℚ) := by
    exact_mod_cast congrArg Int.cast (Int.toNat_of_nonneg hf1)
  have hc2 : ((⌊h₂⌋.toNat : ℕ) : ℚ) = ((⌊h₂⌋ : ℤ) : ℚ) := by
    exact_mod_cast congrArg Int.cast (Int.toNat_of_nonneg hf2)
  have hg1lo : 0 ≤ h₁ - (⌊h₁⌋.toNat : ℚ) := by
    rw [hc1]
    have h := Int.floor_le h₁
    linarith
  have hg1hi : h₁ - (⌊h₁⌋.toNat : ℚ) ≤ 1 := by
    rw [hc1]
    have h := Int.lt_floor_add_one h₁
    linarith
  have hg2lo : 0 ≤ h₂ - (⌊h₂⌋.toNat : ℚ) := by
    rw [hc2]
    have h := Int.floor_le h₂
    linarith
  have hLlt : s.length - 1 < s.length := Nat.sub_lt hpos one_pos
  have hij1 : ⌊h₁⌋.toNat ≤ min (⌊h₁⌋.toNat + 1) (s.length - 1) :=
    le_min (Nat.le_succ _) hi1L
  have hij2 : ⌊h₂⌋.toNat ≤ min (⌊h₂⌋.toNat + 1) (s.length - 1) :=
    le_min (Nat.le_succ _) hi2L
  have hj1n : min (⌊h₁⌋.toNat + 1) (s.length - 1) < s.length :=
    lt_of_le_of_lt (min_le_right _ _) hLlt
  have hj2n : min (⌊h₂⌋.toNat + 1) (s.length - 1) < s.length :=
    lt_of_le_of_lt (min_le_right _ _) hLlt
  have hd1 : s.getD (⌊h₁⌋.toNat) 0 ≤ s.getD (min (⌊h₁⌋.toNat + 1) (s.length - 1)) 0 :=
    sorted_getD_le s hs _ _ hij1 hj1n
  have hd2 : s.getD (⌊h₂⌋.toNat) 0 ≤ s.getD (min (⌊h₂⌋.toNat + 1) (s.length - 1)) 0 :=
    sorted_getD_le s hs _ _ hij2 hj2n
  rcases eq_or_lt_of_le (Int.toNat_le_toNat hfle) with heq | hlt
  · rw [heq]
    have hg : h₁ - (⌊h₂⌋.toNat : ℚ) ≤ h₂ - (⌊h₂⌋.toNat : ℚ) := by linarith
    nlinarith [hd2, hg, sub_nonneg.mpr hd2]
  · have hj1i2 : min (⌊h₁⌋.toNat + 1) (s.length - 1) ≤ ⌊h₂⌋.toNat :=
      le_trans (min_le_left _ _) hlt
    have hmid : s.getD (min (⌊h₁⌋.toNat + 1) (s.length - 1)) 0
        ≤ s.getD (⌊h₂⌋.toNat) 0 :=
      sorted_getD_le s hs _ _ hj1i2 (lt_of_le_of_lt hi2L hLlt)
    have hstep1 : s.getD (⌊h₁⌋.toNat) 0 +
        (h₁ - (⌊h₁⌋.toNat : ℚ)) *
          (s.getD (min (⌊h₁⌋.toNat + 1) (s.length - 1)) 0 - s.getD (⌊h₁⌋.toNat) 0)
        ≤ s.getD (min (⌊h₁⌋.toNat + 1) (s.length - 1)) 0 := by
      nlinarith [hd1, hg1lo, hg1hi]
    have hstep2 : s.getD (⌊h₂⌋.toNat) 0
        ≤ s.getD (⌊h₂⌋.toNat) 0 +
          (h₂ - (⌊h₂⌋.toNat : ℚ)) *
            (s.getD (min (⌊h₂⌋.toNat + 1) (s.length - 1)) 0 - s.getD (⌊h₂⌋.toNat) 0) := by
      nlinarith [hd2, hg2lo]
    linarith

/-- `np.percentile` extraction is monotone in the percentile rank. -/
theorem npPercentile_mono (xs : List ℚ) (hxs : xs ≠ []) (q₁ q₂ : ℚ)
    (h0 : 0 ≤ q₁) (h12 : q₁ ≤ q₂) (h100 : q₂ ≤ 100) :
    npPercentile xs q₁ ≤ npPercentile xs q₂ := by
  simp only [npPercentile]
  have hsorted : List.Sorted (· ≤ ·) (xs.mergeSort fun a b => decide (a ≤ b)) :=
    mergeSortQ_sorted xs
  have hlen : (xs.mergeSort fun a b => decide (a ≤ b)).length = xs.length :=
    List.length_mergeSort xs
  have hpos : 0 < (xs.mergeSort fun a b => decide (a ≤ b)).length := by
    rw [hlen]
    exact List.length_pos.mpr hxs
  have hLnn : (0:ℚ) ≤ (((xs.mergeSort fun a b => decide (a ≤ b)).length - 1 : ℕ) : ℚ) :=
    Nat.cast_nonneg _
  apply interpVal_mono _ hsorted hpos
  · exact div_nonneg (mul_nonneg hLnn h0) (by norm_num)
  · gcongr
  · rw [div_le_iff₀ (by norm_num : (0:ℚ) < 100)]
    nlinarith

/-- Claim C9: for any (non-degenerate, i.e. nonempty) input return set,
any resampling stream and any positive trial count, the Monte Carlo
outputs satisfy `p5 ≤ p50 ≤ p95` both for the final-balance population
and for the max-drawdown population — percentile extraction is monotone
in the rank over each sampled population. -/
theorem monte_carlo_percentile_order (returns : List ℚ) (pick : ℕ → ℕ → ℕ)
    (iterations : ℕ) (hret : returns ≠ []) (hiter : 0 < iterations) :
    (npPercentile (run_monte_carlo returns pick iterations).1 5
        ≤ npPercentile (run_monte_carlo returns pick iterations).1 50 ∧
     npPercentile (run_monte_carlo returns pick iterations).1 50
        ≤ npPercentile (run_monte_carlo returns pick iterations).1 95) ∧
    (npPercentile (run_monte_carlo returns pick iterations).2 5
        ≤ npPercentile (run_monte_carlo returns pick iterations).2 50 ∧
     npPercentile (run_monte_carlo returns pick iterations).2 50
        ≤ npPercentile (run_monte_carlo returns pick iterations).2 95) := by
  have h1 : (run_monte_carlo returns pick iterations).1 ≠ [] := by
    apply List.ne_nil_of_length_pos
    simpa [run_monte_carlo] using hiter
  have h2 : (run_monte_carlo returns pick iterations).2 ≠ [] := by
    apply List.ne_nil_of_length_pos
    simpa [run_monte_carlo] using hiter
  exact ⟨⟨npPercentile_mono _ h1 5 50 (by norm_num) (by norm_num) (by norm_num),
          npPercentile_mono _ h1 50 95 (by norm_num) (by norm_num) (by norm_num)⟩,
         ⟨npPercentile_mono _ h2 5 50 (by norm_num) (by norm_num) (by norm_num),
          npPercentile_mono _ h2 50 95 (by norm_num) (by norm_num) (by norm_num)⟩⟩

/-- Witness for `monte_carlo_percentile_order` on the single return 0.1
with one trial and the constant sampler. -/
theorem monte_carlo_percentile_order_witness :
    ([(1:ℚ)/10] ≠ ([] : List ℚ)) ∧ 0 < 1 ∧
    npPercentile (run_monte_carlo [(1:ℚ)/10] (fun _ _ => 0) 1).1 5
      ≤ npPercentile (run_monte_carlo [(1:ℚ)/10] (fun _ _ => 0) 1).1 50 :=
  ⟨by simp, by norm_num,
   ((monte_carlo_percentile_order [(1:ℚ)/10] (fun _ _ => 0) 1 (by simp)
      (by norm_num)).1).1⟩
